import Mathlib

/-!
# Property-to-Attribute Reconciliation

A shallow embedding of the attribute reconciliation rules that the
ReactDOMServerIntegration test suites in this repository exercise.  The
renderer implementation itself is not part of the repository — only its
integration tests are — so the definitions below are modelled from the
specification's description of the reconciler (spec §3, §4.1, §7, §8),
kept consistent with the concrete expectations asserted by the tests
under `src/packages/react-dom/src/__tests__/`.
-/

namespace ReactReconcile

/-- Modelled from the spec: the value types a component prop can hold
(spec §3 lists string | number | boolean | null | undefined | function |
symbol).  JavaScript numbers that appear in the tests are finite decimals,
embedded as `num m e` denoting `m / 10 ^ e`. -/
inductive JSValue where
  | str (s : String)
  | num (m : Int) (e : Nat)
  | bool (b : Bool)
  | null
  | undefined
  | func
  | symbol
  deriving DecidableEq, Repr

/-- Strip trailing `'0'` characters, used for the fractional part of a
decimal rendering. -/
def stripTrailingZeros (s : List Char) : List Char :=
  ((s.reverse).dropWhile (fun c => c == '0')).reverse

/-- Modelled from the spec: JavaScript's default decimal rendering of the
finite-decimal numbers used by the tests: `numToString m e` renders
`m / 10 ^ e` (`numToString 5 1 = "0.5"`, `numToString 16 0 = "16"`). -/
def numToString (m : Int) (e : Nat) : String :=
  if e = 0 then toString m
  else
    let sign := if m < 0 then "-" else ""
    let n := m.natAbs
    let intPart := n / 10 ^ e
    let fracPadded := (toString (10 ^ e + n % 10 ^ e)).toList.drop 1
    let frac := stripTrailingZeros fracPadded
    if frac.isEmpty then sign ++ toString intPart
    else sign ++ toString intPart ++ "." ++ String.mk frac

/-- Modelled from the spec: coercion of a prop value to attribute text
(spec §4.1: "coerced to string and emitted verbatim"; booleans on
custom elements / `data-*` attributes stringify to `"true"`/`"false"`). -/
def JSValue.toAttributeString : JSValue → String
  | .str s => s
  | .num m e => numToString m e
  | .bool b => if b then "true" else "false"
  | .null => "null"
  | .undefined => "undefined"
  | .func => "function"
  | .symbol => "symbol"

/-- The tagged-variant rule kinds the spec's §9 asks the table to carry. -/
inductive PropertyType where
  | RESERVED
  | OVERLOADED_BOOLEAN
  | POSITIVE_NUMERIC
  | NUMERIC
  | STRING
  deriving DecidableEq, Repr

/-- One reconciliation-table entry: canonical (case-sensitive) prop name,
the attribute name it emits, and its rule kind (spec §3). -/
structure PropertyInfo where
  propName : String
  attributeName : String
  type : PropertyType
  deriving DecidableEq, Repr

/-- Modelled from the spec: the explicit declarative reconciliation table
(spec §9), restricted to the properties the test suites exercise. -/
def properties : List PropertyInfo :=
  [ ⟨"children", "children", .RESERVED⟩
  , ⟨"key", "key", .RESERVED⟩
  , ⟨"ref", "ref", .RESERVED⟩
  , ⟨"dangerouslySetInnerHTML", "dangerouslySetInnerHTML", .RESERVED⟩
  , ⟨"suppressContentEditableWarning", "suppressContentEditableWarning", .RESERVED⟩
  , ⟨"suppressHydrationWarning", "suppressHydrationWarning", .RESERVED⟩
  , ⟨"download", "download", .OVERLOADED_BOOLEAN⟩
  , ⟨"size", "size", .POSITIVE_NUMERIC⟩
  , ⟨"start", "start", .NUMERIC⟩
  , ⟨"className", "class", .STRING⟩
  , ⟨"htmlFor", "for", .STRING⟩
  , ⟨"httpEquiv", "http-equiv", .STRING⟩
  , ⟨"strokeDasharray", "stroke-dasharray", .STRING⟩
  ]

/-- Case-sensitive lookup in the reconciliation table. -/
def getPropertyInfo (name : String) : Option PropertyInfo :=
  properties.find? (fun info => info.propName == name)

/-- Reserved prop names are never emitted, on any element (spec §4.1). -/
def isReserved (name : String) : Bool :=
  match getPropertyInfo name with
  | some info => info.type == .RESERVED
  | none => false

/-- ASCII lowercase of one character (attribute names are ASCII). -/
def toLowerChar (c : Char) : Char :=
  if c.isUpper then Char.ofNat (c.toNat + 32) else c

/-- ASCII lowercase of an attribute name. -/
def toLowerStr (s : String) : String :=
  String.mk (s.toList.map toLowerChar)

/-- An element is a custom element when its tag contains a dash
(`<custom-element />`). -/
def isCustomElement (tag : String) : Bool :=
  tag.toList.contains '-'

/-- Modelled from the spec: custom elements preserve the original prop
name and casing; `null`/`undefined`/function/symbol suppress the
attribute; booleans stringify (spec §4.1 "custom elements preserve
original casing", tests `ReactDomServerIntegrationAttributes-3-test.js`). -/
def customElementAttribute (name : String) (v : JSValue) : Option (String × String) :=
  match v with
  | .null | .undefined | .func | .symbol => none
  | v => some (name, v.toAttributeString)

/-- Modelled from the spec: unknown attributes on standard elements pass
through with casing normalised to lowercase; `null`/`undefined`/
function/symbol suppress; boolean values are stringified only for
`data-*`/`aria-*` names and otherwise suppressed (spec §4.1, tests
"unknown attributes"). -/
def unknownAttribute (name : String) (v : JSValue) : Option (String × String) :=
  match v with
  | .null | .undefined | .func | .symbol => none
  | .bool b =>
      if "data-".toList.isPrefixOf name.toList
          || "aria-".toList.isPrefixOf name.toList then
        some (toLowerStr name, (JSValue.bool b).toAttributeString)
      else none
  | v => some (toLowerStr name, v.toAttributeString)

/-- Modelled from the spec: the per-kind value coercion and suppression
rules of the reconciliation table (spec §4.1):
overloaded booleans emit `""` for `true` and vanish for `false`;
positive-only numerics vanish at zero or below; plain numerics emit
the stringified number; string props vanish for booleans; function and
symbol values always vanish. -/
def knownAttribute (info : PropertyInfo) (v : JSValue) : Option (String × String) :=
  match info.type, v with
  | .RESERVED, _ => none
  | _, .null | _, .undefined | _, .func | _, .symbol => none
  | .OVERLOADED_BOOLEAN, .bool b =>
      if b then some (info.attributeName, "") else none
  | .OVERLOADED_BOOLEAN, v => some (info.attributeName, v.toAttributeString)
  | .POSITIVE_NUMERIC, .num m e =>
      if 0 < m then some (info.attributeName, numToString m e) else none
  | .POSITIVE_NUMERIC, .str s => some (info.attributeName, s)
  | .POSITIVE_NUMERIC, .bool _ => none
  | .NUMERIC, .num m e => some (info.attributeName, numToString m e)
  | .NUMERIC, .str s => some (info.attributeName, s)
  | .NUMERIC, .bool _ => none
  | .STRING, .str s => some (info.attributeName, s)
  | .STRING, .num m e => some (info.attributeName, numToString m e)
  | .STRING, .bool _ => none

/-- Modelled from the spec: the Attribute Reconciler (spec §4.1) — given
the element tag, a prop name and its value, decide the emitted attribute
name/value pair, or `none` for suppression. -/
def renderAttribute (tag name : String) (v : JSValue) : Option (String × String) :=
  if isReserved name then none
  else if isCustomElement tag then customElementAttribute name v
  else
    match getPropertyInfo name with
    | some info => knownAttribute info v
    | none => unknownAttribute name v

/-- Modelled from the spec: the developer warning for a badly-cased
variant of a canonical prop name — the name is not in the (case
sensitive) table but case-insensitively collides with a canonical prop
name (spec §4.1 "emitted as literal unknown attributes alongside a
developer warning"). -/
def warnsBadlyCased (name : String) : Bool :=
  (getPropertyInfo name).isNone &&
    properties.any (fun info =>
      toLowerStr info.propName == toLowerStr name && info.propName != name)

/-! ## Style serialization -/

/-- A custom CSS property is a key starting with the `--` prefix
(spec §4.1 "custom properties (keys starting with a defined prefix)"). -/
def isCustomProperty (name : String) : Bool :=
  "--".toList.isPrefixOf name.toList

/-- Modelled from the spec: the known unitless-number CSS property set
(spec §4.1 "numeric values receive a unit suffix unless the CSS property
is in a known unitless set"), restricted to the names the tests use. -/
def isUnitlessNumber (name : String) : Bool :=
  name ∈ ["opacity", "lineClamp", "zIndex", "flex", "flexGrow", "flexShrink",
          "order", "zoom", "fontWeight", "lineHeight", "widows", "orphans",
          "tabSize", "gridRow", "gridColumn", "animationIterationCount"]

/-- Dash-case a single character of a style name. -/
def hyphenateChar (c : Char) : List Char :=
  if c.isUpper then ['-', c.toLower] else [c]

/-- Modelled from the spec: style keys serialize to their CSS dash-cased
form except custom properties, which pass through unchanged (spec §4.1). -/
def hyphenateStyleName (name : String) : String :=
  if isCustomProperty name then name
  else String.mk ((name.toList.map hyphenateChar).flatten)

/-- `null` and `undefined` prop/style values (the suppression predicate of
spec §3 restricted to the nullish values). -/
def isNullish : JSValue → Bool
  | .null => true
  | .undefined => true
  | _ => false

/-- Modelled from the spec: the text of one style declaration's value:
nullish values become empty (omitted), numbers get a `px` suffix unless
the property is unitless or a custom property, strings pass through
(spec §4.1, tests "inline styles"). -/
def dangerousStyleValue (name : String) (v : JSValue) : String :=
  match v with
  | .str s => s
  | .num m e =>
      if isCustomProperty name || isUnitlessNumber name then numToString m e
      else numToString m e ++ "px"
  | _ => ""

/-- One serialized declaration, empty when the value is omitted. -/
def styleDeclaration (p : String × JSValue) : String :=
  let v := dangerousStyleValue p.1 p.2
  if v = "" then "" else hyphenateStyleName p.1 ++ ":" ++ v ++ ";"

/-- Concatenation of a list of strings. -/
def concatAll : List String → String
  | [] => ""
  | s :: rest => s ++ concatAll rest

/-- Modelled from the spec: CSS text serialization of a style object,
skipping omitted declarations (spec §4.1). -/
def createMarkupForStyles (styles : List (String × JSValue)) : String :=
  concatAll (styles.map styleDeclaration)

/-- Modelled from the spec: the `style` attribute: absent when every
declaration is omitted (spec §4.1 "if all declarations are omitted, the
`style` attribute itself is omitted"). -/
def renderStyleAttribute (styles : List (String × JSValue)) : Option String :=
  let s := createMarkupForStyles styles
  if s = "" then none else some s

/-! ## Text escaping -/

/-- Modelled from the spec: escaping of one markup-special character in a
text child (tests "escaping >, <, and &"). -/
def escapeChar (c : Char) : List Char :=
  if c = '"' then ['&', 'q', 'u', 'o', 't', ';']
  else if c = '&' then ['&', 'a', 'm', 'p', ';']
  else if c = '<' then ['&', 'l', 't', ';']
  else if c = '>' then ['&', 'g', 't', ';']
  else [c]

/-- Escape every character of a text child. -/
def escapeList : List Char → List Char
  | [] => []
  | c :: cs => escapeChar c ++ escapeList cs

/-- Modelled from the spec: the markup emitted for a text child. -/
def escapeTextForBrowser (s : String) : String :=
  String.mk (escapeList s.toList)

/-- The text a markup consumer reads back from an escaped text node:
entity references decode to their characters. -/
def unescapeList : List Char → List Char
  | '&' :: 'q' :: 'u' :: 'o' :: 't' :: ';' :: rest => '"' :: unescapeList rest
  | '&' :: 'a' :: 'm' :: 'p' :: ';' :: rest => '&' :: unescapeList rest
  | '&' :: 'l' :: 't' :: ';' :: rest => '<' :: unescapeList rest
  | '&' :: 'g' :: 't' :: ';' :: rest => '>' :: unescapeList rest
  | c :: rest => c :: unescapeList rest
  | [] => []

/-- String form of `unescapeList`. -/
def unescapeText (s : String) : String :=
  String.mk (unescapeList s.toList)

/-! ## Element type validation -/

/-- Modelled from the spec: the type slot of an element: a tag string, a
class/function component, or one of the invalid types the tests probe
(spec §7 "non-string, non-function element types"). -/
inductive ElementType where
  | tagName (s : String)
  | component
  | objectType
  | nullType
  | undefinedType
  deriving DecidableEq, Repr

/-- JavaScript-side description of an element type's runtime type. -/
def typeDescription : ElementType → String
  | .tagName _ => "string"
  | .component => "function"
  | .objectType => "object"
  | .nullType => "null"
  | .undefinedType => "undefined"

/-- Modelled from the spec: validation of an element's type: strings and
class/function components are accepted, anything else raises a hard,
descriptive error identifying the offending type (spec §7). -/
def validateElementType : ElementType → Except String Unit
  | .tagName _ => .ok ()
  | .component => .ok ()
  | t =>
      .error ("Element type is invalid: expected a string (for built-in components) or a class/function (for composite components) but got: "
        ++ typeDescription t ++ ".")

/-! ## Shared lemmas -/

/-- Function and symbol values suppress the attribute on every path of
the reconciler. -/
theorem renderAttribute_invalid_none (tag name : String) (v : JSValue)
    (hv : v = JSValue.func ∨ v = JSValue.symbol) :
    renderAttribute tag name v = none := by
  have core : ∀ w : JSValue, w = JSValue.func ∨ w = JSValue.symbol →
      renderAttribute tag name w = none := by
    intro w hw
    unfold renderAttribute
    by_cases hres : isReserved name
    · simp [hres]
    · by_cases hel : isCustomElement tag
      · rcases hw with rfl | rfl <;> simp [hres, hel, customElementAttribute]
      · cases hinfo : getPropertyInfo name with
        | none =>
            rcases hw with rfl | rfl <;> simp [hres, hel, hinfo, unknownAttribute]
        | some info =>
            rcases info with ⟨p, a, t⟩
            rcases hw with rfl | rfl <;>
              cases t <;> simp [hres, hel, hinfo, knownAttribute]
  exact core v hv

/-! ## Claim theorems -/

/-- C1: on every standard (non-custom) element, the overloaded boolean
attribute `download` renders as the empty-string attribute for `true`;
is absent for `false`, `null` and `undefined`; and for any string or
number value is present with the value coerced to a string verbatim
(in particular the strings `"false"`/`"true"` and the number `0`). -/
theorem download_overloaded_boolean (tag : String)
    (hel : isCustomElement tag = false) :
    renderAttribute tag "download" (JSValue.bool true) = some ("download", "") ∧
    renderAttribute tag "download" (JSValue.bool false) = none ∧
    renderAttribute tag "download" JSValue.null = none ∧
    renderAttribute tag "download" JSValue.undefined = none ∧
    (∀ s : String, renderAttribute tag "download" (JSValue.str s) = some ("download", s)) ∧
    (∀ m e, renderAttribute tag "download" (JSValue.num m e) =
      some ("download", numToString m e)) ∧
    renderAttribute tag "download" (JSValue.str "false") = some ("download", "false") ∧
    renderAttribute tag "download" (JSValue.str "true") = some ("download", "true") ∧
    renderAttribute tag "download" (JSValue.num 0 0) = some ("download", "0") := by
  have hres : isReserved "download" = false := by decide
  have hinfo : getPropertyInfo "download" =
      some ⟨"download", "download", PropertyType.OVERLOADED_BOOLEAN⟩ := by decide
  have hnum : numToString 0 0 = "0" := by decide
  refine ⟨?_, ?_, ?_, ?_, ?_, ?_, ?_, ?_, ?_⟩ <;>
    simp [renderAttribute, hres, hel, hinfo, knownAttribute,
      JSValue.toAttributeString, hnum]

/-- C1 witness: the download rules evaluated on the anchor element. -/
theorem download_overloaded_boolean_witness :
    isCustomElement "a" = false ∧
    renderAttribute "a" "download" (JSValue.bool true) = some ("download", "") :=
  ⟨by decide, (download_overloaded_boolean "a" (by decide)).1⟩

/-- C2: a badly-cased (all-lowercase) variant of a canonical prop name —
one absent from the case-sensitive table but case-insensitively colliding
with a canonical prop name — is emitted as a literal unknown attribute
under its own name with its value, triggers the developer warning, and is
never corrected to any table entry's canonical attribute name. -/
theorem badly_cased_prop_passthrough (tag name s : String)
    (hel : isCustomElement tag = false)
    (hnone : getPropertyInfo name = none)
    (hlower : toLowerStr name = name)
    (hcase : properties.any (fun info =>
      toLowerStr info.propName == toLowerStr name && info.propName != name) = true) :
    renderAttribute tag name (JSValue.str s) = some (name, s) ∧
    warnsBadlyCased name = true ∧
    (∀ info ∈ properties, info.attributeName ≠ name →
      renderAttribute tag name (JSValue.str s) ≠ some (info.attributeName, s)) := by
  have hres : isReserved name = false := by simp [isReserved, hnone]
  have hmain : renderAttribute tag name (JSValue.str s) = some (name, s) := by
    simp [renderAttribute, hres, hel, hnone, unknownAttribute, hlower,
      JSValue.toAttributeString]
  refine ⟨hmain, ?_, ?_⟩
  · simp [warnsBadlyCased, hnone, hcase]
  · intro info _ hne heq
    rw [hmain] at heq
    exact hne (by injection heq with h1; exact (Prod.mk.injEq _ _ _ _ ▸ h1).1.symm)

/-- C2 witness: `classname` passes through as a literal unknown attribute
with a warning instead of being corrected to `class`. -/
theorem badly_cased_prop_passthrough_witness :
    renderAttribute "div" "classname" (JSValue.str "test") = some ("classname", "test") ∧
    warnsBadlyCased "classname" = true :=
  ⟨(badly_cased_prop_passthrough "div" "classname" "test"
      (by decide) (by decide) (by decide) (by decide)).1,
   (badly_cased_prop_passthrough "div" "classname" "test"
      (by decide) (by decide) (by decide) (by decide)).2.1⟩

/-- C3: on a standard element, the positive-only numeric attribute `size`
is absent for `0` and for every non-positive number, present with text
`"2"` for the number `2`; the plain numeric attribute `start` with the
number `0` is present with text `"0"`. -/
theorem positive_numeric_policy (tag : String)
    (hel : isCustomElement tag = false) :
    (∀ (m : Int) (e : Nat), m ≤ 0 →
      renderAttribute tag "size" (JSValue.num m e) = none) ∧
    renderAttribute tag "size" (JSValue.num 0 0) = none ∧
    renderAttribute tag "size" (JSValue.num 2 0) = some ("size", "2") ∧
    renderAttribute tag "start" (JSValue.num 0 0) = some ("start", "0") := by
  have hressz : isReserved "size" = false := by decide
  have hresst : isReserved "start" = false := by decide
  have hsz : getPropertyInfo "size" =
      some ⟨"size", "size", PropertyType.POSITIVE_NUMERIC⟩ := by decide
  have hst : getPropertyInfo "start" =
      some ⟨"start", "start", PropertyType.NUMERIC⟩ := by decide
  refine ⟨?_, ?_, ?_, ?_⟩
  · intro m e hm
    simp [renderAttribute, hressz, hel, hsz, knownAttribute, not_lt.mpr hm]
  · simp [renderAttribute, hressz, hel, hsz, knownAttribute]
  · have : numToString 2 0 = "2" := by decide
    simp [renderAttribute, hressz, hel, hsz, knownAttribute, this]
  · have : numToString 0 0 = "0" := by decide
    simp [renderAttribute, hresst, hel, hst, knownAttribute, this]

/-- C3 witness: `size` and `start` evaluated on their test elements. -/
theorem positive_numeric_policy_witness :
    renderAttribute "input" "size" (JSValue.num 0 0) = none ∧
    renderAttribute "ol" "start" (JSValue.num 0 0) = some ("start", "0") :=
  ⟨(positive_numeric_policy "input" (by decide)).2.1,
   (positive_numeric_policy "ol" (by decide)).2.2.2⟩

/-- C4: for every element, prop name and function or symbol value, the
reconciler's total result is simply attribute-absent — invalid values
degrade to omission rather than any error outcome. -/
theorem invalid_values_omit_attribute (tag name : String) (v : JSValue)
    (hv : v = JSValue.func ∨ v = JSValue.symbol) :
    renderAttribute tag name v = none :=
  renderAttribute_invalid_none tag name v hv

/-- C4 witness: a function-valued `download` and a symbol-valued `start`
are both omitted. -/
theorem invalid_values_omit_attribute_witness :
    renderAttribute "div" "download" JSValue.func = none ∧
    renderAttribute "ol" "start" JSValue.symbol = none :=
  ⟨invalid_values_omit_attribute "div" "download" JSValue.func (Or.inl rfl),
   invalid_values_omit_attribute "ol" "start" JSValue.symbol (Or.inr rfl)⟩

/-- A nullish style value serializes to the empty declaration. -/
theorem styleDeclaration_nullish (p : String × JSValue)
    (h : isNullish p.2 = true) : styleDeclaration p = "" := by
  rcases p with ⟨n, v⟩
  cases v <;> simp_all [isNullish, styleDeclaration, dangerousStyleValue]

/-- C5: nullish declarations are exactly the omitted ones — the style
markup equals the markup of the style with the nullish declarations
filtered out — and when every declaration is nullish the `style`
attribute itself is absent. -/
theorem style_nullish_omitted (styles : List (String × JSValue)) :
    createMarkupForStyles styles =
      createMarkupForStyles (styles.filter (fun p => !(isNullish p.2))) ∧
    ((∀ p ∈ styles, isNullish p.2 = true) → renderStyleAttribute styles = none) := by
  constructor
  · induction styles with
    | nil => rfl
    | cons p rest ih =>
        by_cases h : isNullish p.2
        · simp [createMarkupForStyles, concatAll, List.filter, h,
            styleDeclaration_nullish p h] at ih ⊢
          exact ih
        · simp only [createMarkupForStyles, List.map, concatAll,
            List.filter, h, Bool.not_false] at ih ⊢
          rw [ih]
  · intro hall
    have hempty : createMarkupForStyles styles = "" := by
      induction styles with
      | nil => rfl
      | cons p rest ih =>
          have hp := styleDeclaration_nullish p (hall p (by simp))
          have hrest := ih (fun q hq => hall q (by simp [hq]))
          simp [createMarkupForStyles, concatAll, hp] at hrest ⊢
          exact hrest
    simp [renderStyleAttribute, hempty]

/-- C5 witness: an all-null style yields no `style` attribute, and a
half-null style keeps only the remaining declaration. -/
theorem style_nullish_omitted_witness :
    renderStyleAttribute [("color", JSValue.null), ("width", JSValue.null)] = none ∧
    createMarkupForStyles [("color", JSValue.null), ("width", JSValue.str "30px")] =
      createMarkupForStyles
        ([("color", JSValue.null), ("width", JSValue.str "30px")].filter
          (fun p => !(isNullish p.2))) :=
  ⟨(style_nullish_omitted [("color", JSValue.null), ("width", JSValue.null)]).2
      (by decide),
   (style_nullish_omitted [("color", JSValue.null), ("width", JSValue.str "30px")]).1⟩

/-- C6: numeric style values get the `px` suffix unless the property is
in the unitless set (`opacity 0.5` stays `"0.5"`, `lineClamp 10` stays
`"10"`, `left 0` becomes `"0px"`, `margin 16` becomes `"16px"`), and a
custom-property key passes through unchanged with its numeric value kept
without any unit suffix (`--foo: 5` yields `"5"`). -/
theorem style_unit_suffix (name : String) (m : Int) (e : Nat)
    (hcp : isCustomProperty name = true) :
    dangerousStyleValue "opacity" (JSValue.num 5 1) = "0.5" ∧
    dangerousStyleValue "lineClamp" (JSValue.num 10 0) = "10" ∧
    dangerousStyleValue "left" (JSValue.num 0 0) = "0px" ∧
    dangerousStyleValue "margin" (JSValue.num 16 0) = "16px" ∧
    hyphenateStyleName name = name ∧
    dangerousStyleValue name (JSValue.num m e) = numToString m e ∧
    hyphenateStyleName "--foo" = "--foo" ∧
    dangerousStyleValue "--foo" (JSValue.num 5 0) = "5" := by
  refine ⟨by decide, by decide, by decide, by decide, ?_, ?_, by decide, by decide⟩
  · simp [hyphenateStyleName, hcp]
  · simp [dangerousStyleValue, hcp]

/-- C6 witness: the unit rules evaluated at the custom property `--foo`
with value `5`. -/
theorem style_unit_suffix_witness :
    dangerousStyleValue "--foo" (JSValue.num 5 0) = numToString 5 0 ∧
    dangerousStyleValue "opacity" (JSValue.num 5 1) = "0.5" :=
  ⟨(style_unit_suffix "--foo" 5 0 (by decide)).2.2.2.2.2.1,
   (style_unit_suffix "--foo" 5 0 (by decide)).1⟩

/-- The reserved prop names of the test suite. -/
def reservedPropNames : List String :=
  ["key", "children", "ref", "dangerouslySetInnerHTML",
   "suppressContentEditableWarning", "suppressHydrationWarning"]

/-- C7: the reserved prop names are never emitted as attributes on any
element for any value, while the differently-cased `CHILDREN` is not
reserved and is emitted (as a lowercased unknown attribute). -/
theorem reserved_never_emitted (tag name : String) (v : JSValue)
    (h : name ∈ reservedPropNames) :
    renderAttribute tag name v = none ∧
    renderAttribute "div" "CHILDREN" (JSValue.str "5") = some ("children", "5") := by
  constructor
  · have hres : isReserved name = true := by
      simp only [reservedPropNames, List.mem_cons, List.not_mem_nil, or_false] at h
      rcases h with rfl | rfl | rfl | rfl | rfl | rfl <;> decide
    simp [renderAttribute, hres]
  · decide

/-- C7 witness: `key` with a string value is never an attribute. -/
theorem reserved_never_emitted_witness :
    renderAttribute "div" "key" (JSValue.str "foo") = none :=
  (reserved_never_emitted "div" "key" (JSValue.str "foo") (by decide)).1

/-- C8: an element whose type is an object, `null` or `undefined` raises
a hard error identifying the offending type, while string tags and
class/function components are accepted — in contrast to attribute
values, whose invalid cases only omit the attribute and never error. -/
theorem invalid_element_type_errors :
    validateElementType ElementType.objectType =
      Except.error "Element type is invalid: expected a string (for built-in components) or a class/function (for composite components) but got: object." ∧
    validateElementType ElementType.nullType =
      Except.error "Element type is invalid: expected a string (for built-in components) or a class/function (for composite components) but got: null." ∧
    validateElementType ElementType.undefinedType =
      Except.error "Element type is invalid: expected a string (for built-in components) or a class/function (for composite components) but got: undefined." ∧
    (∀ s, validateElementType (ElementType.tagName s) = Except.ok ()) ∧
    validateElementType ElementType.component = Except.ok () ∧
    (∀ tag name, renderAttribute tag name JSValue.func = none ∧
      renderAttribute tag name JSValue.symbol = none) := by
  refine ⟨rfl, rfl, rfl, fun s => rfl, rfl, fun tag name => ?_⟩
  exact ⟨renderAttribute_invalid_none tag name _ (Or.inl rfl),
    renderAttribute_invalid_none tag name _ (Or.inr rfl)⟩

/-- C9: on custom elements (and for `data-*` attributes on standard
elements) a boolean prop is stringified rather than treated as a
presence flag — `true` renders `"true"`, `false` renders `"false"` —
while `null` still suppresses the attribute entirely. -/
theorem custom_element_boolean_stringified (tag name : String)
    (hel : isCustomElement tag = true) (hres : isReserved name = false) :
    renderAttribute tag name (JSValue.bool true) = some (name, "true") ∧
    renderAttribute tag name (JSValue.bool false) = some (name, "false") ∧
    renderAttribute tag name JSValue.null = none ∧
    renderAttribute "div" "data-foobar" (JSValue.bool true) =
      some ("data-foobar", "true") ∧
    renderAttribute "div" "data-foobar" (JSValue.bool false) =
      some ("data-foobar", "false") ∧
    renderAttribute "div" "data-foobar" JSValue.null = none := by
  refine ⟨?_, ?_, ?_, by decide, by decide, by decide⟩ <;>
    simp [renderAttribute, hres, hel, customElementAttribute,
      JSValue.toAttributeString]

/-- C9 witness: the boolean props of `<custom-element foo={...} />`. -/
theorem custom_element_boolean_stringified_witness :
    renderAttribute "custom-element" "foo" (JSValue.bool true) = some ("foo", "true") ∧
    renderAttribute "custom-element" "foo" JSValue.null = none :=
  ⟨(custom_element_boolean_stringified "custom-element" "foo"
      (by decide) (by decide)).1,
   (custom_element_boolean_stringified "custom-element" "foo"
      (by decide) (by decide)).2.2.1⟩

/-- An unescaped character other than `&` passes through the entity
decoder unchanged. -/
theorem unescapeList_cons_ne (c : Char) (l : List Char) (h : c ≠ '&') :
    unescapeList (c :: l) = c :: unescapeList l := by
  rw [unescapeList.eq_def]
  split <;> simp_all

/-- Decoding inverts encoding: every escaped text child reads back as
exactly the original text. -/
theorem unescapeList_escapeList (cs : List Char) :
    unescapeList (escapeList cs) = cs := by
  induction cs with
  | nil => rfl
  | cons c cs ih =>
      show unescapeList (escapeChar c ++ escapeList cs) = c :: cs
      by_cases h1 : c = '"'
      · subst h1
        show unescapeList ('&' :: 'q' :: 'u' :: 'o' :: 't' :: ';' :: escapeList cs) = _
        rw [show ∀ l, unescapeList ('&' :: 'q' :: 'u' :: 'o' :: 't' :: ';' :: l) =
          '"' :: unescapeList l from fun l => rfl, ih]
      · by_cases h2 : c = '&'
        · subst h2
          show unescapeList ('&' :: 'a' :: 'm' :: 'p' :: ';' :: escapeList cs) = _
          rw [show ∀ l, unescapeList ('&' :: 'a' :: 'm' :: 'p' :: ';' :: l) =
            '&' :: unescapeList l from fun l => rfl, ih]
        · by_cases h3 : c = '<'
          · subst h3
            show unescapeList ('&' :: 'l' :: 't' :: ';' :: escapeList cs) = _
            rw [show ∀ l, unescapeList ('&' :: 'l' :: 't' :: ';' :: l) =
              '<' :: unescapeList l from fun l => rfl, ih]
          · by_cases h4 : c = '>'
            · subst h4
              show unescapeList ('&' :: 'g' :: 't' :: ';' :: escapeList cs) = _
              rw [show ∀ l, unescapeList ('&' :: 'g' :: 't' :: ';' :: l) =
                '>' :: unescapeList l from fun l => rfl, ih]
            · have hc : escapeChar c = [c] := by
                simp [escapeChar, h1, h2, h3, h4]
              rw [hc]
              show unescapeList (c :: escapeList cs) = c :: cs
              rw [unescapeList_cons_ne c _ h2, ih]

/-- No character produced by the escaper is a tag opener. -/
theorem mem_escapeChar_ne_lt (c x : Char) (hx : x ∈ escapeChar c) : x ≠ '<' := by
  unfold escapeChar at hx
  split_ifs at hx with h1 h2 h3 h4
  · intro hrfl; subst hrfl; revert hx; decide
  · intro hrfl; subst hrfl; revert hx; decide
  · intro hrfl; subst hrfl; revert hx; decide
  · intro hrfl; subst hrfl; revert hx; decide
  · simp at hx; subst hx; exact h3

/-- Escaped text contains no `<` anywhere. -/
theorem escapeList_ne_lt (cs : List Char) (x : Char) (hx : x ∈ escapeList cs) :
    x ≠ '<' := by
  induction cs with
  | nil => simp [escapeList] at hx
  | cons c cs ih =>
      rw [show escapeList (c :: cs) = escapeChar c ++ escapeList cs from rfl,
        List.mem_append] at hx
      rcases hx with hx | hx
      · exact mem_escapeChar_ne_lt c x hx
      · exact ih hx

/-- C10: a text child containing the markup-special characters `<`, `>`
and `&` is emitted so that a markup consumer reads back exactly the
original string as one literal text run; the emitted form contains no
`<` at all, so no element tag can be parsed out of it — each text child
(single or one of several) is escaped by the same function. -/
theorem text_child_rendered_literally (s : String) :
    unescapeText (escapeTextForBrowser s) = s ∧
    (∀ c ∈ (escapeTextForBrowser s).toList, c ≠ '<') ∧
    escapeTextForBrowser "<span>Text&quot;</span>" =
      "&lt;span&gt;Text&amp;quot;&lt;/span&gt;" ∧
    unescapeText "&lt;span&gt;Text&amp;quot;&lt;/span&gt;" =
      "<span>Text&quot;</span>" := by
  refine ⟨?_, ?_, by decide, by decide⟩
  · show String.mk (unescapeList (escapeList s.toList)) = s
    rw [unescapeList_escapeList]
    cases s
    rfl
  · intro c hc
    exact escapeList_ne_lt s.toList c hc

/-- C10 witness: the test suite's text child, escaped and read back. -/
theorem text_child_rendered_literally_witness :
    unescapeText (escapeTextForBrowser "<span>Text&quot;</span>") =
      "<span>Text&quot;</span>" ∧
    ('&' : Char) ≠ '<' :=
  ⟨(text_child_rendered_literally "<span>Text&quot;</span>").1,
   (text_child_rendered_literally "<span>Text&quot;</span>").2.1 '&' (by decide)⟩

end ReactReconcile
